import Mathlib

/-
Verification of the schedule-maker constraint model (src/schedule_maker.py).

The script builds a CP-SAT model for a one-month on-call roster:
boolean variables x[(i, doc)] exist for every day index i and doctor doc
that is available on that day; hard constraints enforce coverage,
balanced duty counts, a cap of 7 duties, no consecutive duties, balanced
weekend counts, and at least one full weekend off; a weighted objective
combines soft preference terms.

This file embeds that model shallowly: an `Inst` packages the month
length, the weekday of day 0 (Python convention, Monday = 0), the number
of doctors, and the resolved unavailability table; an `Assign` is a
candidate 0/1 valuation of the variables.  Constraints become decidable
predicates over these, and the objective becomes a function computing
the value the solver sees once each auxiliary variable is set to the
value its defining constraints force (or, for the one-sided deviation
variables, the value a maximizing solver picks).
-/

/-- Month instance: `totalDays` is `len(dates)`, `firstWeekday` the Python
`weekday()` of day index 0 (Monday = 0), `numDocs` is `len(doctors_list)`,
and `unavailability d i = true` when doctor `d` is unavailable on day
index `i` (the resolved form of the input's unavailability column). -/
structure Inst where
  totalDays : Nat
  firstWeekday : Nat
  numDocs : Nat
  unavailability : Nat → Nat → Bool

/-- A candidate solution: the solver value of variable `x[(i, d)]`,
read as `a i d`. Positions without a variable are ignored via `val`. -/
abbrev Assign := Nat → Nat → Bool

/-- Python `dates[i].weekday()`: weekdays advance by one per day, mod 7. -/
def weekdayOf (inst : Inst) (i : Nat) : Nat :=
  (inst.firstWeekday + i) % 7

/-- Line 49: `is_weekend[d] = (d.weekday() >= 5)`. -/
def is_weekend (inst : Inst) (i : Nat) : Bool :=
  decide (5 ≤ weekdayOf inst i)

/-- Lines 84-89: the key `(i, doc)` is in the dictionary `x` exactly when
`i` indexes a day of the month, `doc` is a doctor, and the doctor is not
unavailable that day. -/
def hasVar (inst : Inst) (i d : Nat) : Bool :=
  decide (i < inst.totalDays) && decide (d < inst.numDocs) && !(inst.unavailability d i)

/-- The value `x.get((i, doc), 0)` takes under assignment `a`: the solved
0/1 value where the variable exists, and 0 where it does not. -/
def val (inst : Inst) (a : Assign) (i d : Nat) : Nat :=
  if hasVar inst i d && a i d then 1 else 0

/-- Lines 92-96: `allow_unassigned_tuesdays` is set exactly when
`len(doctors_list) * 7 < len(dates)`. -/
def allow_unassigned_tuesdays (inst : Inst) : Bool :=
  decide (inst.numDocs * 7 < inst.totalDays)

/-- Line 100: the day whose coverage is relaxed to `<= 1`: the slack flag
is on and the day is a Tuesday (`weekday() == 1`). -/
def relaxedSlack (inst : Inst) (i : Nat) : Prop :=
  allow_unassigned_tuesdays inst = true ∧ weekdayOf inst i = 1

/-- Lines 102/105: `sum(x.get((i,doc), 0) for doc in doctors_list)`. -/
def dayCount (inst : Inst) (a : Assign) (i : Nat) : Nat :=
  ((List.range inst.numDocs).map fun d => val inst a i d).sum

/-- Lines 113-117: `sum(x.get((i, doc), 0) for i in range(len(dates)))`. -/
def dutyCount (inst : Inst) (a : Assign) (d : Nat) : Nat :=
  ((List.range inst.totalDays).map fun i => val inst a i d).sum

/-- The day indices flagged as weekend. -/
def weekendDays (inst : Inst) : List Nat :=
  (List.range inst.totalDays).filter fun i => is_weekend inst i

/-- Line 125: `total_weekends = sum(1 for d in dates if is_weekend[d])`. -/
def total_weekends (inst : Inst) : Nat :=
  (weekendDays inst).length

/-- Lines 129-130: a doctor's weekend duties,
`sum(x.get((i, doc), 0) for i, d in enumerate(dates) if is_weekend[d])`. -/
def weekendDutyCount (inst : Inst) (a : Assign) (d : Nat) : Nat :=
  ((weekendDays inst).map fun i => val inst a i d).sum

/-- Line 110: `min_days = total_days // num_docs`. -/
def min_days (inst : Inst) : Nat :=
  inst.totalDays / inst.numDocs

/-- Line 111: `max_days = min_days if total_days % num_docs == 0 else min_days + 1`. -/
def max_days (inst : Inst) : Nat :=
  if inst.totalDays % inst.numDocs = 0 then min_days inst else min_days inst + 1

/-- Line 126: `min_wkend = total_weekends // num_docs`. -/
def min_wkend (inst : Inst) : Nat :=
  total_weekends inst / inst.numDocs

/-- Line 127: `max_wkend = min_wkend if total_weekends % num_docs == 0 else min_wkend + 1`. -/
def max_wkend (inst : Inst) : Nat :=
  if total_weekends inst % inst.numDocs = 0 then min_wkend inst else min_wkend inst + 1

/-- Lines 242-245: Friday indices `i` with `dates[i].weekday() == 4`,
`dates[i+1].weekday() == 5`, `dates[i+2].weekday() == 6`, scanned over
`range(len(dates) - 2)`. -/
def fullWeekendTriplets (inst : Inst) : List Nat :=
  (List.range (inst.totalDays - 2)).filter fun i =>
    weekdayOf inst i == 4 && weekdayOf inst (i+1) == 5 && weekdayOf inst (i+2) == 6

/-- Lines 99-105: per-day coverage. A relaxed slack day takes at most one
doctor, every other day exactly one. -/
def coverageOK (inst : Inst) (a : Assign) : Prop :=
  ∀ i < inst.totalDays,
    (relaxedSlack inst i → dayCount inst a i ≤ 1) ∧
    (¬ relaxedSlack inst i → dayCount inst a i = 1)

/-- Lines 112-117: per-doctor duty-count band and the absolute cap of 7. -/
def dutyOK (inst : Inst) (a : Assign) : Prop :=
  ∀ d < inst.numDocs,
    min_days inst ≤ dutyCount inst a d ∧
    dutyCount inst a d ≤ max_days inst ∧
    dutyCount inst a d ≤ 7

/-- Lines 119-122: `x.get((i, doc), 0) + x.get((i + 1, doc), 0) <= 1` for
`i in range(len(dates) - 1)`. -/
def noConsecutiveOK (inst : Inst) (a : Assign) : Prop :=
  ∀ i < inst.totalDays - 1, ∀ d < inst.numDocs,
    val inst a i d + val inst a (i+1) d ≤ 1

/-- Lines 128-130: per-doctor weekend-duty band. -/
def weekendOK (inst : Inst) (a : Assign) : Prop :=
  ∀ d < inst.numDocs,
    min_wkend inst ≤ weekendDutyCount inst a d ∧
    weekendDutyCount inst a d ≤ max_wkend inst

/-- Lines 240-269: when the month has full Fri-Sat-Sun triplets, each
doctor must be off (value 0, with missing variables counting as the
constant 0 of line 259-261) on all three days of at least one triplet.
The auxiliary `off_var` booleans are forced by their enforce-if pair to
equal the condition, so `sum(off_weekend_vars) >= 1` is exactly this
existential. -/
def restWeekendOK (inst : Inst) (a : Assign) : Prop :=
  ∀ d < inst.numDocs, fullWeekendTriplets inst ≠ [] →
    ∃ t ∈ fullWeekendTriplets inst,
      val inst a t d + val inst a (t+1) d + val inst a (t+2) d = 0

/-- All hard constraints of the model (lines 99-130 and 240-269). -/
def accepted (inst : Inst) (a : Assign) : Prop :=
  coverageOK inst a ∧ dutyOK inst a ∧ noConsecutiveOK inst a ∧
  weekendOK inst a ∧ restWeekendOK inst a

/-- Lines 319-330: the decoder scans doctors in list order and takes the
first one whose variable exists and is 1; `none` models the UNASSIGNED
sentinel. -/
def decode (inst : Inst) (a : Assign) (i : Nat) : Option Nat :=
  (List.range inst.numDocs).find? fun d => hasVar inst i d && a i d

instance (inst : Inst) (i : Nat) : Decidable (relaxedSlack inst i) := by
  unfold relaxedSlack; infer_instance

instance (inst : Inst) (a : Assign) : Decidable (coverageOK inst a) := by
  unfold coverageOK; infer_instance

instance (inst : Inst) (a : Assign) : Decidable (dutyOK inst a) := by
  unfold dutyOK; infer_instance

instance (inst : Inst) (a : Assign) : Decidable (noConsecutiveOK inst a) := by
  unfold noConsecutiveOK; infer_instance

instance (inst : Inst) (a : Assign) : Decidable (weekendOK inst a) := by
  unfold weekendOK; infer_instance

instance (inst : Inst) (a : Assign) : Decidable (restWeekendOK inst a) := by
  unfold restWeekendOK; infer_instance

instance (inst : Inst) (a : Assign) : Decidable (accepted inst a) := by
  unfold accepted; infer_instance

/-- Concrete month used by the witnesses: December 2025 (31 days,
December 1st is a Monday), with five doctors and no unavailability. -/
def inst5 : Inst :=
  ⟨31, 0, 5, fun _ _ => false⟩

/-- A hand-built roster for `inst5`: entry `i` is the doctor on duty on
day index `i`. -/
def sched9 : List Nat :=
  [0,1,0,2,1,2,3,0,4,2,3,2,4,0,3,4,3,0,4,1,4,3,2,4,0,4,1,2,1,3,1]

/-- The assignment induced by `sched9`. -/
def a9 : Assign :=
  fun i d => sched9.getD i 99 == d

/-- Line 16: weight of the every-other-day penalty (defined in the source
but not used by the objective, see lines 285-289). -/
def W_EVERY_OTHER_PENALTY : Int := 4

/-- Line 18: weight of the block-deviation penalty. -/
def W_BLOCK_DEV_PENALTY : Int := 2

/-- Line 19: weight of the full-weekend-off reward. -/
def W_FULL_WKEND_OFF_BONUS : Int := 5

/-- Line 20: weight of the full-weekends-off balancing penalty. -/
def W_BALANCE_FULL_WKENDS_OFF : Int := 20

/-- Line 21: weight of the weekend-duty-day repeat penalty. -/
def W_DIFF_WKEND_DUTY_DAY : Int := 2

/-- Line 206: `total_full_weekends` is the number of Fridays in the month
(every `i` with `weekday() == 4`, with no range check on `i+1`, `i+2`). -/
def fridays (inst : Inst) : List Nat :=
  (List.range inst.totalDays).filter fun i => weekdayOf inst i == 4

/-- Line 206: `len([d for d in dates if d.weekday() == 4])`. -/
def total_full_weekends (inst : Inst) : Nat :=
  (fridays inst).length

/-- Lines 189-193: Friday anchors whose Saturday and Sunday indices both
fall inside the month (`sat_idx`/`sun_idx` not `None`). -/
def fridayAnchors (inst : Inst) : List Nat :=
  (fridays inst).filter fun i =>
    decide (i + 1 < inst.totalDays) && decide (i + 2 < inst.totalDays)

/-- Lines 195-202: the full-weekend-off indicator for doctor `d` anchored
at Friday `i`: the enforce-if pair forces it to 1 exactly when the three
values (missing variables reading 0) sum to zero. -/
def offWindow (inst : Inst) (a : Assign) (d i : Nat) : Bool :=
  decide (val inst a i d + val inst a (i+1) d + val inst a (i+2) d = 0)

/-- Lines 203-204/210-212: a doctor's number of full weekends off,
`sum(weekends_off_per_doc[doc])` with every indicator at its forced
value. -/
def fullWeekendsOffCount (inst : Inst) (a : Assign) (d : Nat) : Nat :=
  (fridayAnchors inst).countP fun i => offWindow inst a d i

/-- Lines 281-282: the total of all full-weekend-off indicators,
`sum(full_weekend_off_bonus)`. -/
def fwoffTotal (inst : Inst) (a : Assign) : Nat :=
  ((List.range inst.numDocs).map fun d => fullWeekendsOffCount inst a d).sum

/-- Lines 214/218-219: `int(avg_full_weekends_off)` where
`avg_full_weekends_off = total_full_weekends / len(doctors_list)` in
floating point; truncation of the float equals Nat division at these
magnitudes (quotients of small integers). -/
def avg_full_weekends_off (inst : Inst) : Nat :=
  total_full_weekends inst / inst.numDocs

/-- Lines 216-220: the admissible values of the deviation variable
`diff_{doc}`: an integer in `[0, total_full_weekends]` that is at least
`count - int(avg)` and at least `int(avg) - count` (the two signed
inequalities, stated over naturals via truncated subtraction, which is
equivalent because the variable is nonnegative). -/
def diffFeasible (inst : Inst) (a : Assign) (d : Nat) (v : Nat) : Prop :=
  v ≤ total_full_weekends inst ∧
  fullWeekendsOffCount inst a d - avg_full_weekends_off inst ≤ v ∧
  avg_full_weekends_off inst - fullWeekendsOffCount inst a d ≤ v

/-- The value a maximizing solver gives `diff_{doc}` (the penalized
deviation variable is pushed to its least admissible value). -/
def balanceDevMin (inst : Inst) (a : Assign) (d : Nat) : Nat :=
  max (fullWeekendsOffCount inst a d - avg_full_weekends_off inst)
      (avg_full_weekends_off inst - fullWeekendsOffCount inst a d)

/-- Line 296: the total balancing penalty body,
`sum(balanced_full_wkends_off_deviation_vars)` at optimal values. -/
def balanceDevTotal (inst : Inst) (a : Assign) : Nat :=
  ((List.range inst.numDocs).map fun d => balanceDevMin inst a d).sum

/-- Modelled from the spec (for comparison only): D times a doctor's
absolute deviation from the doctor population's mean full-weekends-off
count, i.e. `D * |count_d - (sum of counts) / D|` scaled by `D` so it
stays integral; it is zero exactly when the doctor's count equals the
population mean. -/
def specMeanDevTimesD (inst : Inst) (a : Assign) (d : Nat) : Nat :=
  max (inst.numDocs * fullWeekendsOffCount inst a d - fwoffTotal inst a)
      (fwoffTotal inst a - inst.numDocs * fullWeekendsOffCount inst a d)

/-- Line 154: `num_blocks = 4`. -/
def num_blocks : Nat := 4

/-- Line 155: `block_size = math.ceil(len(dates) / num_blocks)`; the
float ceiling equals the Nat ceiling division at these magnitudes. -/
def block_size (inst : Inst) : Nat :=
  (inst.totalDays + num_blocks - 1) / num_blocks

/-- Lines 161-162: the day indices of block `b`, `range(start, end)` with
`start = b * block_size` and `end = min((b+1) * block_size, len(dates))`. -/
def blockDaysList (inst : Inst) (b : Nat) : List Nat :=
  List.range' (b * block_size inst)
    (min ((b+1) * block_size inst) inst.totalDays - b * block_size inst)

/-- Lines 171-172: `rounded_ideal_low = floor((total_days/num_docs)/4)`;
the float floor equals `total_days / (num_docs * 4)` in Nat division at
these magnitudes. -/
def rounded_ideal_low (inst : Inst) : Nat :=
  inst.totalDays / (inst.numDocs * num_blocks)

/-- Line 172: the matching ceiling. -/
def rounded_ideal_high (inst : Inst) : Nat :=
  if inst.totalDays % (inst.numDocs * num_blocks) = 0 then rounded_ideal_low inst
  else rounded_ideal_low inst + 1

/-- Line 165: whether `duties_vars` is nonempty for doctor `d` in block
`b` (some variable exists there). -/
def blockHasVars (inst : Inst) (d b : Nat) : Bool :=
  (blockDaysList inst b).any fun i => hasVar inst i d

/-- Line 169: `duties_sum`, the sum of the doctor's variables in the
block (missing variables read 0, which matches summing only existing
ones). -/
def blockSum (inst : Inst) (a : Assign) (d b : Nat) : Nat :=
  ((blockDaysList inst b).map fun i => val inst a i d).sum

/-- Lines 166-179: the value a maximizing solver gives `dev_block_b_doc`:
the least `dev >= duties_sum - rounded_ideal_high` and
`dev >= rounded_ideal_low - duties_sum` (zero when no variable exists, as
the code then creates no deviation variable). -/
def blockDev (inst : Inst) (a : Assign) (d b : Nat) : Nat :=
  if blockHasVars inst d b then
    max (blockSum inst a d b - rounded_ideal_high inst)
        (rounded_ideal_low inst - blockSum inst a d b)
  else 0

/-- Line 293: `sum(block_deviation_vars)` at optimal values. -/
def blockDevTotal (inst : Inst) (a : Assign) : Nat :=
  ((List.range inst.numDocs).map fun d =>
    ((List.range num_blocks).map fun b => blockDev inst a d b).sum).sum

/-- Line 223: Saturday day indices. -/
def saturdays (inst : Inst) : List Nat :=
  (List.range inst.totalDays).filter fun i => weekdayOf inst i == 5

/-- Line 224: Sunday day indices. -/
def sundays (inst : Inst) : List Nat :=
  (List.range inst.totalDays).filter fun i => weekdayOf inst i == 6

/-- Line 228: `len(sat_vars)`, the number of Saturdays on which doctor
`d` has a variable. -/
def sat_var_count (inst : Inst) (d : Nat) : Nat :=
  ((saturdays inst).filter fun i => hasVar inst i d).length

/-- Line 231: `sum(sat_vars)` under assignment `a`. -/
def sat_sum (inst : Inst) (a : Assign) (d : Nat) : Nat :=
  ((saturdays inst).map fun i => val inst a i d).sum

/-- Line 234: `len(sun_vars)`. -/
def sun_var_count (inst : Inst) (d : Nat) : Nat :=
  ((sundays inst).filter fun i => hasVar inst i d).length

/-- Line 237: `sum(sun_vars)` under assignment `a`. -/
def sun_sum (inst : Inst) (a : Assign) (d : Nat) : Nat :=
  ((sundays inst).map fun i => val inst a i d).sum

/-- Lines 229-231: the defining constraints of `extra_sat` for doctor
`d`: an integer in `[0, len(sat_vars) - 1]` equal to `sum(sat_vars) - 1`
(only created when `len(sat_vars) > 1`, so `e < len` states the domain). -/
def extra_sat_feasible (inst : Inst) (a : Assign) (d : Nat) : Prop :=
  ∃ e, e < sat_var_count inst d ∧ e + 1 = sat_sum inst a d

/-- Lines 226-238: value of the weekend-day-repeat term
`sum(different_weekend_duty_day_vars)` with each `extra_sat`/`extra_sun`
at the value its equality constraint forces, namely `sum - 1` (an
integer, since the equality has no solution in the variable's domain
when the sum is 0). -/
def weekendRepeatTotal (inst : Inst) (a : Assign) : Int :=
  ((List.range inst.numDocs).map fun d =>
    (if 1 < sat_var_count inst d then (sat_sum inst a d : Int) - 1 else 0) +
    (if 1 < sun_var_count inst d then (sun_sum inst a d : Int) - 1 else 0)).sum

/-- Lines 143-151: the number of every-other indicators forced to 1: for
each doctor and day `i` such that both `(i, doc)` and `(i+2, doc)` are
keys of `x`, the indicator is 1 exactly when both variables are 1. -/
def everyOtherCount (inst : Inst) (a : Assign) : Nat :=
  ((List.range inst.numDocs).map fun d =>
    (List.range (inst.totalDays - 2)).countP fun i =>
      hasVar inst i d && hasVar inst (i+2) d &&
      decide (val inst a i d + val inst a (i+2) d = 2)).sum

/-- Lines 278-303: the objective expression handed to `model.Maximize`,
evaluated with every auxiliary variable at its forced (indicator,
`extra_*`) or optimal (deviation) value.  The source appends the
full-weekend-off bonus and the block-deviation, balance and
weekend-repeat penalties; the every-other and gap penalty appends are
commented out (lines 285-289).  Empty term lists contribute zero either
way, so the `if list:` guards do not change the value. -/
def objCode (inst : Inst) (a : Assign) : Int :=
  W_FULL_WKEND_OFF_BONUS * (fwoffTotal inst a : Int)
  - W_BLOCK_DEV_PENALTY * (blockDevTotal inst a : Int)
  - W_BALANCE_FULL_WKENDS_OFF * (balanceDevTotal inst a : Int)
  - W_DIFF_WKEND_DUTY_DAY * weekendRepeatTotal inst a

/-- One per-day coverage constraint, recorded during model construction
(lines 99-105): the day index and whether its sum is relaxed to `<= 1`. -/
structure CoverageCt where
  day : Nat
  relaxed : Bool

/-- Lines 99-105: the list of coverage constraints added to the model,
one per day, in day order. -/
def coverageCts (inst : Inst) : List CoverageCt :=
  (List.range inst.totalDays).map fun i =>
    ⟨i, allow_unassigned_tuesdays inst && (weekdayOf inst i == 1)⟩

/-- Lines 108-111: computing `min_days = total_days // num_docs` and
`max_days` is the first operation of the script that divides by the
doctor count; with zero doctors Python raises an uncaught
ZeroDivisionError here, after the model, its variables and the coverage
constraints were already built. -/
def dutyBoundsStage (inst : Inst) : Except Unit (Nat × Nat) :=
  if inst.numDocs = 0 then Except.error () else Except.ok (min_days inst, max_days inst)

/-- Line 311: `solver.Solve(model)` is called unconditionally; the only
way the script stops beforehand (input reading aside) is the
ZeroDivisionError of the duty-bound stage, so the solve call is reached
exactly when that stage succeeds. -/
def reachesSolve (inst : Inst) : Bool :=
  match dutyBoundsStage inst with
  | Except.ok _ => true
  | Except.error _ => false

/-- The all-zero assignment (no variable set to 1). -/
def zeroAssign : Assign := fun _ _ => false

/-- December 2025 with six doctors, doctor 0 unavailable on every day of
the month, the others fully available. -/
def inst6 : Inst :=
  ⟨31, 0, 6, fun d _ => d == 0⟩

/-- December 2025 with two doctors, both unavailable on day index 2
(December 3rd, a Wednesday -- not the Tuesday slack day). -/
def instC5 : Inst :=
  ⟨31, 0, 2, fun _ i => i == 2⟩

/-- December 2025 with zero doctors. -/
def instD0 : Inst :=
  ⟨31, 0, 0, fun _ _ => false⟩

/-- December 2025 with a single, fully available doctor (used to compare
objective values). -/
def inst7 : Inst :=
  ⟨31, 0, 1, fun _ _ => false⟩

/-- Doctor 0 works days 0, 2, 5 and 13: contains the every-other pattern
(0, 2). -/
def a7a : Assign :=
  fun i d => d == 0 && (i == 0 || i == 2 || i == 5 || i == 13)

/-- Doctor 0 works days 1, 4, 5 and 13: no every-other pattern, same
block sums, Saturday/Sunday sums and full-weekends-off count as `a7a`. -/
def a7b : Assign :=
  fun i d => d == 0 && (i == 1 || i == 4 || i == 5 || i == 13)

/-- December 2025 with two fully available doctors (used for the balance
term comparison). -/
def inst8 : Inst :=
  ⟨31, 0, 2, fun _ _ => false⟩

/-- Helper: the roster `a9` satisfies every hard constraint of `inst5`. -/
theorem accepted_inst5_a9 : accepted inst5 a9 := by decide

/-- Sum of a 0/1 indicator over a list is the count of hits. -/
theorem sum_map_indicator (l : List Nat) (p : Nat → Bool) :
    (l.map fun d => if p d then (1 : Nat) else 0).sum = l.countP p := by
  induction l with
  | nil => rfl
  | cons x xs ih =>
    rw [List.map_cons, List.sum_cons, List.countP_cons, ih]
    cases h : p x <;> simp [h, Nat.add_comm]

/-- The decoder yields the UNASSIGNED sentinel exactly when the day's
variables sum to zero. -/
theorem decode_eq_none_iff (inst : Inst) (a : Assign) (i : Nat) :
    decode inst a i = none ↔ dayCount inst a i = 0 := by
  have hsum : dayCount inst a i
      = (List.range inst.numDocs).countP (fun d => hasVar inst i d && a i d) := by
    unfold dayCount
    rw [← sum_map_indicator]
    rfl
  rw [hsum, List.countP_eq_zero]
  unfold decode
  rw [List.find?_eq_none]

/-- C1: in every accepted solution, each non-relaxed day has exactly one
assigned doctor and each relaxed slack day at most one; the relaxation is
active only when doctor count times the cap 7 is below the month length;
the decoder records UNASSIGNED exactly when no variable of the day is 1,
which can only happen on a relaxed slack day. -/
theorem C1_coverage_decoder (inst : Inst) (a : Assign) (h : accepted inst a)
    (i : Nat) (hi : i < inst.totalDays) :
    (¬ relaxedSlack inst i → dayCount inst a i = 1) ∧
    (relaxedSlack inst i → dayCount inst a i ≤ 1) ∧
    (relaxedSlack inst i → inst.numDocs * 7 < inst.totalDays) ∧
    (decode inst a i = none ↔ dayCount inst a i = 0) ∧
    (decode inst a i = none → relaxedSlack inst i) := by
  obtain ⟨hcov, -, -, -, -⟩ := h
  obtain ⟨hrel, hnorm⟩ := hcov i hi
  refine ⟨hnorm, hrel, ?_, decode_eq_none_iff inst a i, ?_⟩
  · rintro ⟨hau, -⟩
    exact of_decide_eq_true hau
  · intro hnone
    by_contra hns
    have h1 := hnorm hns
    rw [decode_eq_none_iff] at hnone
    omega

/-- Witness for C1 at the concrete December 2025 instance: day 0 is not a
relaxed slack day and carries exactly one doctor. -/
theorem C1_witness : ¬ relaxedSlack inst5 0 ∧ dayCount inst5 a9 0 = 1 :=
  ⟨by decide, (C1_coverage_decoder inst5 a9 accepted_inst5_a9 0 (by decide)).1 (by decide)⟩

/-- Floor-or-ceiling division: the code's `m if n % D == 0 else m + 1`
pattern (with `m = n // D`) equals the ceiling `(n + D - 1) / D`. -/
theorem band_top_eq_ceil (n D : Nat) (hD : 0 < D) :
    (if n % D = 0 then n / D else n / D + 1) = (n + D - 1) / D := by
  have h1 : n + D - 1 = n + (D - 1) := by omega
  rw [h1, Nat.add_div hD]
  have h2 : (D - 1) / D = 0 := Nat.div_eq_of_lt (by omega)
  have h3 : (D - 1) % D = D - 1 := Nat.mod_eq_of_lt (by omega)
  rw [h2, h3]
  have hmod : n % D < D := Nat.mod_lt n hD
  split
  case isTrue h => rw [if_neg (by omega)]; omega
  case isFalse h => rw [if_pos (by omega)]

/-- The duty band's top, rewritten as a ceiling. -/
theorem max_days_eq_ceil (inst : Inst) (hD : 0 < inst.numDocs) :
    max_days inst = (inst.totalDays + inst.numDocs - 1) / inst.numDocs := by
  unfold max_days min_days
  exact band_top_eq_ceil inst.totalDays inst.numDocs hD

/-- The weekend band's top, rewritten as a ceiling. -/
theorem max_wkend_eq_ceil (inst : Inst) (hD : 0 < inst.numDocs) :
    max_wkend inst = (total_weekends inst + inst.numDocs - 1) / inst.numDocs := by
  unfold max_wkend min_wkend
  exact band_top_eq_ceil (total_weekends inst) inst.numDocs hD

/-- The band top is at most one above the band bottom. -/
theorem max_days_le_min_days_succ (inst : Inst) :
    max_days inst ≤ min_days inst + 1 := by
  unfold max_days
  split <;> omega

/-- The weekend band top is at most one above the band bottom. -/
theorem max_wkend_le_min_wkend_succ (inst : Inst) :
    max_wkend inst ≤ min_wkend inst + 1 := by
  unfold max_wkend
  split <;> omega

/-- C2: in every accepted solution each doctor's duty count lies in the
fairness band from the floor to the ceiling of T/D and never exceeds 7,
the weekend-duty count lies between the floor and the ceiling of W/D,
and consequently both counts differ by at most one across doctors. -/
theorem C2_fairness_bounds (inst : Inst) (a : Assign) (h : accepted inst a)
    (hD : 0 < inst.numDocs) (d : Nat) (hd : d < inst.numDocs) :
    (inst.totalDays / inst.numDocs ≤ dutyCount inst a d ∧
     dutyCount inst a d ≤ (inst.totalDays + inst.numDocs - 1) / inst.numDocs ∧
     dutyCount inst a d ≤ 7 ∧
     total_weekends inst / inst.numDocs ≤ weekendDutyCount inst a d ∧
     weekendDutyCount inst a d ≤ (total_weekends inst + inst.numDocs - 1) / inst.numDocs) ∧
    (∀ d' < inst.numDocs,
      dutyCount inst a d ≤ dutyCount inst a d' + 1 ∧
      weekendDutyCount inst a d ≤ weekendDutyCount inst a d' + 1) := by
  obtain ⟨-, hduty, -, hwk, -⟩ := h
  obtain ⟨h1, h2, h3⟩ := hduty d hd
  obtain ⟨h4, h5⟩ := hwk d hd
  have hmax := max_days_eq_ceil inst hD
  have hmaxw := max_wkend_eq_ceil inst hD
  have hsucc := max_days_le_min_days_succ inst
  have hsuccw := max_wkend_le_min_wkend_succ inst
  refine ⟨⟨h1, hmax ▸ h2, h3, h4, hmaxw ▸ h5⟩, ?_⟩
  intro d' hd'
  obtain ⟨h1', h2', h3'⟩ := hduty d' hd'
  obtain ⟨h4', h5'⟩ := hwk d' hd'
  omega

/-- Witness for C2 at the December 2025 instance. -/
theorem C2_witness :
    accepted inst5 a9 ∧ dutyCount inst5 a9 0 ≤ 7 ∧
    31 / 5 ≤ dutyCount inst5 a9 0 := by
  have h := (C2_fairness_bounds inst5 a9 accepted_inst5_a9 (by decide) 0 (by decide)).1
  exact ⟨accepted_inst5_a9, h.2.2.1, h.1⟩

/-- C3: in every accepted solution no doctor is assigned on two adjacent
day indices: the two variables are never both 1. -/
theorem C3_no_consecutive (inst : Inst) (a : Assign) (h : accepted inst a)
    (i : Nat) (hi : i + 1 < inst.totalDays) (d : Nat) (hd : d < inst.numDocs) :
    ¬ (val inst a i d = 1 ∧ val inst a (i+1) d = 1) := by
  obtain ⟨-, -, hc, -, -⟩ := h
  rintro ⟨h1, h2⟩
  have := hc i (by omega) d hd
  omega

/-- Witness for C3 at the December 2025 instance. -/
theorem C3_witness :
    0 + 1 < inst5.totalDays ∧ ¬ (val inst5 a9 0 0 = 1 ∧ val inst5 a9 1 0 = 1) :=
  ⟨by decide, C3_no_consecutive inst5 a9 accepted_inst5_a9 0 (by decide) 0 (by decide)⟩

/-- C4: when the month contains full Fri-Sat-Sun triplets (the condition
under which the code adds the minimum-rest-weekend hard constraint), every
doctor in every accepted solution is assigned on none of the three days of
at least one triplet; days without a variable (doctor unavailable) count
as off, because their value is the constant 0. -/
theorem C4_rest_weekend (inst : Inst) (a : Assign) (h : accepted inst a)
    (hfw : fullWeekendTriplets inst ≠ []) (d : Nat) (hd : d < inst.numDocs) :
    ∃ t ∈ fullWeekendTriplets inst,
      val inst a t d = 0 ∧ val inst a (t+1) d = 0 ∧ val inst a (t+2) d = 0 := by
  obtain ⟨-, -, -, -, hr⟩ := h
  obtain ⟨t, ht, hsum⟩ := hr d hd hfw
  exact ⟨t, ht, by omega, by omega, by omega⟩

/-- Witness for C4 at the December 2025 instance. -/
theorem C4_witness :
    fullWeekendTriplets inst5 ≠ [] ∧
    ∃ t ∈ fullWeekendTriplets inst5,
      val inst5 a9 t 0 = 0 ∧ val inst5 a9 (t+1) 0 = 0 ∧ val inst5 a9 (t+2) 0 = 0 :=
  ⟨by decide, C4_rest_weekend inst5 a9 accepted_inst5_a9 (by decide) 0 (by decide)⟩

/-- Helper: a fully unavailable doctor has no variables, hence a zero
duty count under every assignment. -/
theorem duty_zero_of_all_unavailable (inst : Inst) (a : Assign) (d : Nat)
    (hun : ∀ i < inst.totalDays, inst.unavailability d i = true) :
    dutyCount inst a d = 0 := by
  unfold dutyCount
  apply List.sum_eq_zero
  intro x hx
  simp only [List.mem_map, List.mem_range] at hx
  obtain ⟨i, hi, rfl⟩ := hx
  simp [val, hasVar, hun i hi]

/-- Helper: a non-relaxed day on which every doctor is unavailable makes
the coverage constraint `sum([]) == 1` unsatisfiable, so no assignment is
accepted. -/
theorem infeasible_of_uncovered (inst : Inst) (i : Nat) (hi : i < inst.totalDays)
    (hns : ¬ relaxedSlack inst i)
    (hun : ∀ d < inst.numDocs, inst.unavailability d i = true) :
    ∀ a, ¬ accepted inst a := by
  intro a h
  obtain ⟨hcov, -, -, -, -⟩ := h
  have h1 := (hcov i hi).2 hns
  have h0 : dayCount inst a i = 0 := by
    unfold dayCount
    apply List.sum_eq_zero
    intro x hx
    simp only [List.mem_map, List.mem_range] at hx
    obtain ⟨d, hd, rfl⟩ := hx
    simp [val, hasVar, hun d hd]
  omega

/-- Helper: with at least one doctor the duty-bound stage succeeds, so
the script reaches the solver invocation. -/
theorem reachesSolve_of_docs (inst : Inst) (hD : 0 < inst.numDocs) :
    reachesSolve inst = true := by
  unfold reachesSolve dutyBoundsStage
  rw [if_neg (by omega)]

/-- C5 (amended): a non-slack day with every doctor unavailable makes the
model infeasible by construction, but the script has no pre-solve check:
whenever there is at least one doctor it still reaches the solver
invocation, which then returns INFEASIBLE and the run raises the
no-feasible-schedule error. -/
theorem C5_no_presolve_check (inst : Inst) (i : Nat) (hi : i < inst.totalDays)
    (hns : ¬ relaxedSlack inst i)
    (hun : ∀ d < inst.numDocs, inst.unavailability d i = true) :
    (∀ a, ¬ accepted inst a) ∧ (0 < inst.numDocs → reachesSolve inst = true) :=
  ⟨infeasible_of_uncovered inst i hi hns hun, fun hD => reachesSolve_of_docs inst hD⟩

/-- C5 counterexample: on December 2025 with two doctors both unavailable
on the Wednesday at index 2 (a non-slack day with no variables), the
model is infeasible, yet the script still reaches the solver invocation
-- refuting the claim that it reports INFEASIBLE immediately and does not
invoke the search engine. -/
theorem C5_counterexample :
    (¬ relaxedSlack instC5 2) ∧
    (∀ d < instC5.numDocs, instC5.unavailability d 2 = true) ∧
    reachesSolve instC5 = true ∧
    (∀ a, ¬ accepted instC5 a) :=
  ⟨by decide, by decide, by decide,
    infeasible_of_uncovered instC5 2 (by decide) (by decide) (by decide)⟩

/-- Witness for C5 at the concrete instance `instC5`. -/
theorem C5_witness :
    (¬ relaxedSlack instC5 2) ∧ ¬ accepted instC5 zeroAssign ∧
    reachesSolve instC5 = true := by
  have h := C5_no_presolve_check instC5 2 (by decide) (by decide) (by decide)
  exact ⟨by decide, h.1 zeroAssign, h.2 (by decide)⟩

/-- C6 (amended): a doctor unavailable on every day of the month receives
zero assignments in any accepted solution, but whenever the balanced-duty
lower bound `total_days // num_docs` is at least 1 that same doctor makes
the model infeasible regardless of the remaining doctors' capacity. -/
theorem C6_unavailable_doctor (inst : Inst) (d0 : Nat) (hd0 : d0 < inst.numDocs)
    (hun : ∀ i < inst.totalDays, inst.unavailability d0 i = true) :
    (∀ a, accepted inst a → dutyCount inst a d0 = 0) ∧
    (1 ≤ inst.totalDays / inst.numDocs → ∀ a, ¬ accepted inst a) := by
  constructor
  · intro a _
    exact duty_zero_of_all_unavailable inst a d0 hun
  · intro hmin a h
    obtain ⟨-, hduty, -, -, -⟩ := h
    have h1 := (hduty d0 hd0).1
    have h0 := duty_zero_of_all_unavailable inst a d0 hun
    unfold min_days at h1
    omega

/-- C6 counterexample: December 2025 with six doctors, doctor 0
unavailable all month. The five available doctors have capacity
5 * 7 = 35 >= 31 days (the code's own capacity notion, line 92), yet no
assignment is accepted, because doctor 0 cannot reach the duty lower
bound 31 // 6 = 5 -- refuting the claim that coverage still succeeds
whenever the remaining doctors have sufficient capacity. -/
theorem C6_counterexample :
    (∀ i < inst6.totalDays, inst6.unavailability 0 i = true) ∧
    inst6.totalDays ≤ (inst6.numDocs - 1) * 7 ∧
    (∀ a, ¬ accepted inst6 a) := by
  refine ⟨by decide, by decide, ?_⟩
  intro a h
  obtain ⟨-, hduty, -, -, -⟩ := h
  have h1 := (hduty 0 (by decide)).1
  have h0 := duty_zero_of_all_unavailable inst6 a 0 (by decide)
  have h2 : min_days inst6 = 5 := by decide
  omega

/-- Witness for C6 at the concrete instance `inst6`. -/
theorem C6_witness :
    1 ≤ inst6.totalDays / inst6.numDocs ∧ ¬ accepted inst6 zeroAssign :=
  ⟨by decide, (C6_unavailable_doctor inst6 0 (by decide) (by decide)).2 (by decide) zeroAssign⟩

/-- C7 (amended): the objective handed to the solver is fully determined
by the full-weekend-off bonus and the block-deviation, balance and
weekend-repeat totals; the every-other indicators contribute nothing
(their penalty append is commented out in the source). -/
theorem C7_objective_determined (inst : Inst) (a a' : Assign)
    (h1 : fwoffTotal inst a = fwoffTotal inst a')
    (h2 : blockDevTotal inst a = blockDevTotal inst a')
    (h3 : balanceDevTotal inst a = balanceDevTotal inst a')
    (h4 : weekendRepeatTotal inst a = weekendRepeatTotal inst a') :
    objCode inst a = objCode inst a' := by
  unfold objCode
  rw [h1, h2, h3, h4]

/-- C7 counterexample: two assignments for a one-doctor December 2025
that agree on every term the objective contains but differ in their
every-other count (1 versus 0) receive the same objective value -- so the
maximized objective does not include the every-other-day penalty term. -/
theorem C7_counterexample :
    everyOtherCount inst7 a7a = 1 ∧ everyOtherCount inst7 a7b = 0 ∧
    fwoffTotal inst7 a7a = fwoffTotal inst7 a7b ∧
    blockDevTotal inst7 a7a = blockDevTotal inst7 a7b ∧
    balanceDevTotal inst7 a7a = balanceDevTotal inst7 a7b ∧
    weekendRepeatTotal inst7 a7a = weekendRepeatTotal inst7 a7b ∧
    objCode inst7 a7a = objCode inst7 a7b := by
  decide

/-- Witness for C7 at the concrete pair `a7a`, `a7b`. -/
theorem C7_witness :
    fwoffTotal inst7 a7a = fwoffTotal inst7 a7b ∧
    objCode inst7 a7a = objCode inst7 a7b :=
  ⟨by decide,
    C7_objective_determined inst7 a7a a7b (by decide) (by decide) (by decide) (by decide)⟩

/-- Helper: a doctor's full-weekends-off count never exceeds the number
of Fridays in the month. -/
theorem count_le_fridays (inst : Inst) (a : Assign) (d : Nat) :
    fullWeekendsOffCount inst a d ≤ total_full_weekends inst := by
  unfold fullWeekendsOffCount total_full_weekends fridayAnchors
  exact le_trans (List.countP_le_length _) (List.length_filter_le _ _)

/-- C8 (amended): the balance term's deviation variable for each doctor
is pushed by maximization to exactly the absolute difference between the
doctor's full-weekends-off count and the fixed target
`int(total_full_weekends / num_docs)` -- the truncated ratio of Fridays
to doctors, not the population's mean count. -/
theorem C8_balance_target (inst : Inst) (a : Assign) (d : Nat) :
    IsLeast {v : Nat | diffFeasible inst a d v} (balanceDevMin inst a d) := by
  constructor
  · have h1 := count_le_fridays inst a d
    have h2 : avg_full_weekends_off inst ≤ total_full_weekends inst :=
      Nat.div_le_self _ _
    refine ⟨?_, le_max_left _ _, le_max_right _ _⟩
    exact max_le (by omega) (by omega)
  · intro v hv
    obtain ⟨-, hv1, hv2⟩ := hv
    exact max_le hv1 hv2

/-- C8 counterexample: December 2025 with two fully available doctors and
the all-zero assignment. Both doctors have 4 full weekends off, so doctor
0's count equals the population mean exactly (spec deviation 0), yet the
code's deviation variable is forced to |4 - int(4/2)| = 2 -- the term
penalizes distance to `int(total_full_weekends / num_docs)`, not to the
population's average count. -/
theorem C8_counterexample :
    fullWeekendsOffCount inst8 zeroAssign 0 = 4 ∧
    fullWeekendsOffCount inst8 zeroAssign 1 = 4 ∧
    inst8.numDocs = 2 ∧
    specMeanDevTimesD inst8 zeroAssign 0 = 0 ∧
    balanceDevMin inst8 zeroAssign 0 = 2 := by
  decide

/-- C9: the weekend-day-repeat term is not purely soft. The roster `a9`
satisfies every hard constraint of `inst5` while doctor 0 works none of
their 4 available Saturdays; but `extra_sat` for doctor 0 must lie in
`[0, 3]` and equal `sum(sat_vars) - 1 = -1`, which no value does, so the
code's model rejects this assignment: adding the term's defining
constraints shrinks the feasible set. -/
theorem C9_weekend_repeat_not_soft :
    accepted inst5 a9 ∧
    1 < sat_var_count inst5 0 ∧
    sat_sum inst5 a9 0 = 0 ∧
    ¬ extra_sat_feasible inst5 a9 0 := by
  refine ⟨accepted_inst5_a9, by decide, by decide, ?_⟩
  rintro ⟨e, -, he⟩
  have h0 : sat_sum inst5 a9 0 = 0 := by decide
  omega

/-- C10 (amended): with zero doctors the run dies at the duty-bound
computation (Python ZeroDivisionError), after the per-day coverage
constraints -- one per day of the month -- were already added to the
model; it never reaches the solver, but the abort is not a configuration
check before model construction. -/
theorem C10_zero_doctors (inst : Inst) (h : inst.numDocs = 0) :
    dutyBoundsStage inst = Except.error () ∧
    (coverageCts inst).length = inst.totalDays ∧
    reachesSolve inst = false := by
  refine ⟨?_, ?_, ?_⟩
  · unfold dutyBoundsStage
    rw [if_pos h]
  · unfold coverageCts
    rw [List.length_map, List.length_range]
  · unfold reachesSolve dutyBoundsStage
    rw [if_pos h]

/-- C10 counterexample: with zero doctors on a 31-day month, all 31
coverage constraints are constructed before the zero-division abort at
the duty-bound stage, refuting "aborts before model construction
begins"; and a zero-day month with one doctor would not abort at all
(and cannot arise from the calendar, which yields 28 to 31 days). -/
theorem C10_counterexample :
    instD0.numDocs = 0 ∧
    (coverageCts instD0).length = 31 ∧
    dutyBoundsStage instD0 = Except.error () ∧
    dutyBoundsStage ⟨0, 0, 1, fun _ _ => false⟩ = Except.ok (0, 0) := by
  refine ⟨rfl, ?_, rfl, rfl⟩
  unfold coverageCts
  rw [List.length_map, List.length_range]
  rfl

/-- Witness for C10 at the concrete instance `instD0`. -/
theorem C10_witness :
    instD0.numDocs = 0 ∧ reachesSolve instD0 = false :=
  ⟨rfl, (C10_zero_doctors instD0 rfl).2.2⟩
